import Mathlib

/-!
Verification of the TPDU transport-layer codec (knx/proto/tpdu.go).

The Go code is shallowly embedded over `Nat`: machine bytes become natural
numbers manipulated with the same shift/mask operators the source uses, and
the octet stream becomes a `List Nat`.  `TPDU.ReadFrom` consumes a byte list
and returns the decoded record together with the bytes left unconsumed in the
stream (the Go decoder reads only the header byte for control packets and
drains the reader for data packets); `TPDU.WriteTo` produces the byte list the
Go encoder hands to its writer.
-/

namespace KnxProto

/-- TPCI constant from the source: unnumbered data packet. -/
abbrev UnnumberedDataPacket : Nat := 0

/-- TPCI constant from the source: numbered data packet. -/
abbrev NumberedDataPacket : Nat := 1

/-- TPCI constant from the source: unnumbered control packet. -/
abbrev UnnumberedControlPacket : Nat := 2

/-- TPCI constant from the source: numbered control packet. -/
abbrev NumberedControlPacket : Nat := 3

/-- The TPDU record, mirroring the Go struct `TPDU` field for field
(`PacketType TPCI`, `SeqNumber uint8`, `Control uint8`, `Info APCI`,
`Data []byte`). -/
structure TPDU where
  PacketType : Nat
  SeqNumber : Nat
  Control : Nat
  Info : Nat
  Data : List Nat
deriving DecidableEq, Repr

/-- Errors the decoder can surface.  `dataUnitTooShort` is the source's
`ErrDataUnitTooShort`; `unreachable` is the source's final
`errors.New("Unreachable")` fallback after the packet-type switch;
`truncatedInput` is the header-read failure (see `ReadSequence`). -/
inductive DecodeError where
  | truncatedInput
  | dataUnitTooShort
  | unreachable
deriving DecidableEq, Repr

deriving instance DecidableEq for Except

/-- Modelled from the spec: the header read performed through
`binary.ReadSequence` (package `knx/binary`, whose source is not included
here) pulls exactly one byte from the stream, and a zero-length input fails
with the error the spec names `TruncatedInput`. -/
def ReadSequence : List Nat → Except DecodeError (Nat × List Nat)
  | [] => Except.error DecodeError.truncatedInput
  | b :: rest => Except.ok (b, rest)

/-- Embedding of `TPDU.ReadFrom`.  The bit arithmetic is transcribed from the
source: `packetType := (head >> 6) & 3`, `seqNumber := (head >> 2) & 15`; the
control branch stores `head & 3` and consumes nothing further; the data branch
drains the rest of the stream (`bytes.Buffer.ReadFrom`), fails with
`ErrDataUnitTooShort` when it is empty, computes
`info := (head & 3) << 2 | (data[0] >> 6) & 3`, and takes `data[1:]` as the
payload when more than one byte was buffered, else `[data[0] & 63]`. -/
def TPDU.ReadFrom (input : List Nat) : Except DecodeError (TPDU × List Nat) :=
  match ReadSequence input with
  | Except.error err => Except.error err
  | Except.ok (head, rest) =>
    if ((head >>> 6) &&& 3) = UnnumberedControlPacket
        ∨ ((head >>> 6) &&& 3) = NumberedControlPacket then
      Except.ok (⟨(head >>> 6) &&& 3, (head >>> 2) &&& 15, head &&& 3, 0, []⟩, rest)
    else if ((head >>> 6) &&& 3) = UnnumberedDataPacket
        ∨ ((head >>> 6) &&& 3) = NumberedDataPacket then
      match rest with
      | [] => Except.error DecodeError.dataUnitTooShort
      | d0 :: ds =>
        Except.ok
          (⟨(head >>> 6) &&& 3, (head >>> 2) &&& 15, 0,
            ((head &&& 3) <<< 2) ||| ((d0 >>> 6) &&& 3),
            if ds = [] then [d0 &&& 63] else ds⟩, [])
    else Except.error DecodeError.unreachable

/-- Embedding of `TPDU.WriteTo`.  Transcribed from the source: the header byte
is `(PacketType & 3) << 6 | (SeqNumber & 15) << 2`, or-ed with `Control & 3`
for control packets and with `(Info >> 2) & 3` for data packets; a non-empty
payload is appended with its first byte rewritten to
`(Data[0] & 63) | (Info & 3) << 6`, and an empty payload becomes the single
synthetic byte `(Info & 3) << 6`.  A `PacketType` matching neither switch case
emits the bare header byte, exactly as the Go switch falls through. -/
def TPDU.WriteTo (tpdu : TPDU) : List Nat :=
  if tpdu.PacketType = UnnumberedControlPacket
      ∨ tpdu.PacketType = NumberedControlPacket then
    [(((tpdu.PacketType &&& 3) <<< 6) ||| ((tpdu.SeqNumber &&& 15) <<< 2))
      ||| (tpdu.Control &&& 3)]
  else if tpdu.PacketType = UnnumberedDataPacket
      ∨ tpdu.PacketType = NumberedDataPacket then
    match tpdu.Data with
    | [] =>
      [(((tpdu.PacketType &&& 3) <<< 6) ||| ((tpdu.SeqNumber &&& 15) <<< 2))
          ||| ((tpdu.Info >>> 2) &&& 3),
        (tpdu.Info &&& 3) <<< 6]
    | d0 :: ds =>
      ((((tpdu.PacketType &&& 3) <<< 6) ||| ((tpdu.SeqNumber &&& 15) <<< 2))
          ||| ((tpdu.Info >>> 2) &&& 3))
        :: ((d0 &&& 63) ||| ((tpdu.Info &&& 3) <<< 6)) :: ds
  else
    [((tpdu.PacketType &&& 3) <<< 6) ||| ((tpdu.SeqNumber &&& 15) <<< 2)]

/-! ### Bit-arithmetic helper lemmas -/

/-- Field extraction from a composed header byte: packing a 2-bit packet type,
a 4-bit sequence number and a 2-bit low field is undone by the decoder's
shift-and-mask reads. -/
theorem headerByte_fields : ∀ a < 4, ∀ b < 16, ∀ c < 4,
    (((((a <<< 6) ||| (b <<< 2)) ||| c) >>> 6) &&& 3 = a)
    ∧ (((((a <<< 6) ||| (b <<< 2)) ||| c) >>> 2) &&& 15 = b)
    ∧ ((((a <<< 6) ||| (b <<< 2)) ||| c) &&& 3 = c) := by decide

/-- Field extraction from a composed continuation byte: a 6-bit low part or-ed
with a 2-bit value shifted to the top splits back into its two parts. -/
theorem contByte_fields : ∀ lo < 64, ∀ hi < 4,
    (((lo ||| (hi <<< 6)) >>> 6) &&& 3 = hi)
    ∧ ((lo ||| (hi <<< 6)) &&& 63 = lo) := by decide

/-- The synthetic continuation byte for an empty payload: only the top two
bits are populated. -/
theorem syntheticByte_fields : ∀ hi < 4,
    ((((hi <<< 6)) >>> 6) &&& 3 = hi) ∧ ((hi <<< 6) &&& 63 = 0) := by decide

/-- Reassembling a 4-bit value from its high and low 2-bit halves is the
identity on the 4-bit domain. -/
theorem infoSplit_join : ∀ i < 16, ((((i >>> 2) &&& 3) <<< 2) ||| (i &&& 3)) = i := by
  decide

/-- Masking is the identity below the mask's width. -/
theorem and_mask_eq_self :
    (∀ s < 16, s &&& 15 = s) ∧ (∀ c < 4, c &&& 3 = c) ∧ (∀ b < 64, b &&& 63 = b) := by
  refine ⟨by decide, by decide, by decide⟩

/-! ### Unfolding lemmas for the decoder and encoder -/

/-- Decoding a stream whose header byte carries a control packet type yields
the control record and consumes only the header byte. -/
theorem ReadFrom_control (head : Nat) (rest : List Nat)
    (h23 : ((head >>> 6) &&& 3) = UnnumberedControlPacket
      ∨ ((head >>> 6) &&& 3) = NumberedControlPacket) :
    TPDU.ReadFrom (head :: rest)
      = Except.ok (⟨(head >>> 6) &&& 3, (head >>> 2) &&& 15, head &&& 3, 0, []⟩, rest) := by
  rcases h23 with h | h <;> simp [TPDU.ReadFrom, ReadSequence, h]

/-- Decoding a stream whose header byte carries a data packet type and which
holds at least one further byte yields the data record and drains the
stream. -/
theorem ReadFrom_data (head d0 : Nat) (ds : List Nat)
    (h01 : ((head >>> 6) &&& 3) = UnnumberedDataPacket
      ∨ ((head >>> 6) &&& 3) = NumberedDataPacket) :
    TPDU.ReadFrom (head :: d0 :: ds)
      = Except.ok (⟨(head >>> 6) &&& 3, (head >>> 2) &&& 15, 0,
          ((head &&& 3) <<< 2) ||| ((d0 >>> 6) &&& 3),
          if ds = [] then [d0 &&& 63] else ds⟩, []) := by
  rcases h01 with h | h <;> simp [TPDU.ReadFrom, ReadSequence, h]

/-- Encoding a data-variant TPDU with a non-empty payload produces the header
byte, the rewritten first payload byte, and the remaining payload verbatim. -/
theorem WriteTo_data_cons (pt seq ctl info d0 : Nat) (ds : List Nat)
    (hpt : pt = UnnumberedDataPacket ∨ pt = NumberedDataPacket) :
    TPDU.WriteTo ⟨pt, seq, ctl, info, d0 :: ds⟩
      = ((((pt &&& 3) <<< 6) ||| ((seq &&& 15) <<< 2)) ||| ((info >>> 2) &&& 3))
        :: ((d0 &&& 63) ||| ((info &&& 3) <<< 6)) :: ds := by
  rcases hpt with rfl | rfl <;> simp [TPDU.WriteTo]

/-- Encoding a data-variant TPDU with an empty payload produces the header
byte followed by the synthetic continuation byte. -/
theorem WriteTo_data_nil (pt seq ctl info : Nat)
    (hpt : pt = UnnumberedDataPacket ∨ pt = NumberedDataPacket) :
    TPDU.WriteTo ⟨pt, seq, ctl, info, []⟩
      = [(((pt &&& 3) <<< 6) ||| ((seq &&& 15) <<< 2)) ||| ((info >>> 2) &&& 3),
          (info &&& 3) <<< 6] := by
  rcases hpt with rfl | rfl <;> simp [TPDU.WriteTo]

/-- Encoding a control-variant TPDU produces the single header byte carrying
the control bits. -/
theorem WriteTo_control (pt seq ctl info : Nat) (data : List Nat)
    (hpt : pt = UnnumberedControlPacket ∨ pt = NumberedControlPacket) :
    TPDU.WriteTo ⟨pt, seq, ctl, info, data⟩
      = [(((pt &&& 3) <<< 6) ||| ((seq &&& 15) <<< 2)) ||| (ctl &&& 3)] := by
  rcases hpt with rfl | rfl <;> simp [TPDU.WriteTo]

/-! ### Round-trip lemmas -/

/-- Encoding then decoding a data-variant TPDU with a non-empty payload: the
packet type comes back exactly, the sequence number masked to 4 bits, the
service code exactly (on its 4-bit domain), and the payload in the lossy shape
dictated by the wire format. -/
theorem data_roundtrip (pt seq ctl info d0 : Nat) (ds : List Nat)
    (hpt : pt = UnnumberedDataPacket ∨ pt = NumberedDataPacket)
    (hinfo : info < 16) :
    TPDU.ReadFrom (TPDU.WriteTo ⟨pt, seq, ctl, info, d0 :: ds⟩)
      = Except.ok (⟨pt, seq &&& 15, 0, info,
          if ds = [] then [d0 &&& 63] else ds⟩, []) := by
  rw [WriteTo_data_cons pt seq ctl info d0 ds hpt]
  have hpt4 : pt < 4 := by rcases hpt with rfl | rfl <;> decide
  have hptm : pt &&& 3 = pt := and_mask_eq_self.2.1 pt hpt4
  have hb : seq &&& 15 < 16 := Nat.lt_succ_of_le Nat.and_le_right
  have hc : (info >>> 2) &&& 3 < 4 := Nat.lt_succ_of_le Nat.and_le_right
  rw [hptm]
  obtain ⟨h6, h2, h0⟩ := headerByte_fields pt hpt4 (seq &&& 15) hb ((info >>> 2) &&& 3) hc
  rw [ReadFrom_data ((pt <<< 6 ||| (seq &&& 15) <<< 2) ||| (info >>> 2) &&& 3)
    ((d0 &&& 63) ||| (info &&& 3) <<< 6) ds (by rw [h6]; exact hpt)]
  rw [h6, h2, h0]
  have hlo : d0 &&& 63 < 64 := Nat.lt_succ_of_le Nat.and_le_right
  have hhi : info &&& 3 < 4 := Nat.lt_succ_of_le Nat.and_le_right
  obtain ⟨e6, e63⟩ := contByte_fields (d0 &&& 63) hlo (info &&& 3) hhi
  rw [e6, e63, infoSplit_join info hinfo]

/-- Encoding then decoding a data-variant TPDU with an empty payload: the
service code comes back exactly and the payload becomes the one-byte sequence
`[0]` read out of the synthetic continuation byte. -/
theorem data_roundtrip_nil (pt seq ctl info : Nat)
    (hpt : pt = UnnumberedDataPacket ∨ pt = NumberedDataPacket)
    (hinfo : info < 16) :
    TPDU.ReadFrom (TPDU.WriteTo ⟨pt, seq, ctl, info, []⟩)
      = Except.ok (⟨pt, seq &&& 15, 0, info, [0]⟩, []) := by
  rw [WriteTo_data_nil pt seq ctl info hpt]
  have hpt4 : pt < 4 := by rcases hpt with rfl | rfl <;> decide
  have hptm : pt &&& 3 = pt := and_mask_eq_self.2.1 pt hpt4
  have hb : seq &&& 15 < 16 := Nat.lt_succ_of_le Nat.and_le_right
  have hc : (info >>> 2) &&& 3 < 4 := Nat.lt_succ_of_le Nat.and_le_right
  rw [hptm]
  obtain ⟨h6, h2, h0⟩ := headerByte_fields pt hpt4 (seq &&& 15) hb ((info >>> 2) &&& 3) hc
  rw [ReadFrom_data ((pt <<< 6 ||| (seq &&& 15) <<< 2) ||| (info >>> 2) &&& 3)
    ((info &&& 3) <<< 6) [] (by rw [h6]; exact hpt)]
  rw [h6, h2, h0]
  have hhi : info &&& 3 < 4 := Nat.lt_succ_of_le Nat.and_le_right
  obtain ⟨s6, s63⟩ := syntheticByte_fields (info &&& 3) hhi
  rw [s6, s63, infoSplit_join info hinfo]
  simp

/-! ### Claims -/

/-- Claim C1: for every data-variant TPDU whose payload has length at least 2
(service code on its 4-bit domain), decoding the encoded bytes reproduces the
packet kind and service code exactly and the sequence number masked to 4 bits,
while the payload comes back with its first byte removed; full round-trip
equality does not hold for such payloads. -/
theorem tpdu_C1_data_lossy_roundtrip (t : TPDU)
    (hpt : t.PacketType = UnnumberedDataPacket ∨ t.PacketType = NumberedDataPacket)
    (hinfo : t.Info < 16) (hlen : 2 ≤ t.Data.length) :
    TPDU.ReadFrom (TPDU.WriteTo t)
      = Except.ok (⟨t.PacketType, t.SeqNumber &&& 15, 0, t.Info, t.Data.tail⟩, [])
    ∧ (⟨t.PacketType, t.SeqNumber &&& 15, 0, t.Info, t.Data.tail⟩ : TPDU) ≠ t := by
  obtain ⟨pt, seq, ctl, info, data⟩ := t
  match data, hlen with
  | d0 :: d1 :: ds, _ =>
    refine ⟨?_, ?_⟩
    · have h := data_roundtrip pt seq ctl info d0 (d1 :: ds) hpt hinfo
      simpa using h
    · intro hEq
      have hD : d1 :: ds = d0 :: d1 :: ds := congrArg TPDU.Data hEq
      have hL := congrArg List.length hD
      simp at hL

/-- Claim C1 witness at a concrete data TPDU with a three-byte payload. -/
theorem tpdu_C1_witness :
    TPDU.ReadFrom (TPDU.WriteTo ⟨UnnumberedDataPacket, 0, 0, 5, [1, 2, 3]⟩)
        = Except.ok (⟨UnnumberedDataPacket, 0, 0, 5, [2, 3]⟩, [])
      ∧ (⟨UnnumberedDataPacket, 0, 0, 5, [2, 3]⟩ : TPDU)
        ≠ ⟨UnnumberedDataPacket, 0, 0, 5, [1, 2, 3]⟩ :=
  tpdu_C1_data_lossy_roundtrip ⟨UnnumberedDataPacket, 0, 0, 5, [1, 2, 3]⟩
    (Or.inl rfl) (by decide) (by decide)

/-- Claim C2: for every control-variant TPDU whose sequence number fits in
4 bits and control fits in 2 bits, with the inactive fields at their
zero/empty defaults, decoding the encoded bytes yields the original TPDU in
every field. -/
theorem tpdu_C2_control_roundtrip (t : TPDU)
    (hpt : t.PacketType = UnnumberedControlPacket ∨ t.PacketType = NumberedControlPacket)
    (hseq : t.SeqNumber < 16) (hctl : t.Control < 4)
    (hinfo : t.Info = 0) (hdata : t.Data = []) :
    TPDU.ReadFrom (TPDU.WriteTo t) = Except.ok (t, []) := by
  obtain ⟨pt, seq, ctl, info, data⟩ := t
  cases hinfo
  cases hdata
  rw [WriteTo_control pt seq ctl 0 [] hpt]
  have hpt4 : pt < 4 := by rcases hpt with rfl | rfl <;> decide
  have hptm : pt &&& 3 = pt := and_mask_eq_self.2.1 pt hpt4
  have hseqm : seq &&& 15 = seq := and_mask_eq_self.1 seq hseq
  have hctlm : ctl &&& 3 = ctl := and_mask_eq_self.2.1 ctl hctl
  rw [hptm, hseqm, hctlm]
  obtain ⟨h6, h2, h0⟩ := headerByte_fields pt hpt4 seq hseq ctl hctl
  rw [ReadFrom_control ((pt <<< 6 ||| seq <<< 2) ||| ctl) [] (by rw [h6]; exact hpt)]
  rw [h6, h2, h0]

/-- Claim C2 witness at a concrete unnumbered-control TPDU. -/
theorem tpdu_C2_witness :
    TPDU.ReadFrom (TPDU.WriteTo ⟨UnnumberedControlPacket, 5, 1, 0, []⟩)
      = Except.ok (⟨UnnumberedControlPacket, 5, 1, 0, []⟩, []) :=
  tpdu_C2_control_roundtrip ⟨UnnumberedControlPacket, 5, 1, 0, []⟩
    (Or.inl rfl) (by decide) (by decide) rfl rfl

/-- Claim C3: for every data-variant TPDU (service code on its 4-bit domain),
if the payload is empty the encoded bytes decode back with service code exact
and payload `[0]`; if the payload is a single byte in 0..63 the decode
reproduces the service code and the payload exactly. -/
theorem tpdu_C3_short_roundtrip (t : TPDU)
    (hpt : t.PacketType = UnnumberedDataPacket ∨ t.PacketType = NumberedDataPacket)
    (hinfo : t.Info < 16) :
    (t.Data = [] →
      TPDU.ReadFrom (TPDU.WriteTo t)
        = Except.ok (⟨t.PacketType, t.SeqNumber &&& 15, 0, t.Info, [0]⟩, []))
    ∧ (∀ b < 64, t.Data = [b] →
      TPDU.ReadFrom (TPDU.WriteTo t)
        = Except.ok (⟨t.PacketType, t.SeqNumber &&& 15, 0, t.Info, [b]⟩, [])) := by
  obtain ⟨pt, seq, ctl, info, data⟩ := t
  refine ⟨?_, ?_⟩
  · intro hD
    cases hD
    exact data_roundtrip_nil pt seq ctl info hpt hinfo
  · intro b hb hD
    cases hD
    have h := data_roundtrip pt seq ctl info b [] hpt hinfo
    rw [if_pos rfl, and_mask_eq_self.2.2 b hb] at h
    exact h

/-- Claim C3 witness: a one-byte payload in range round-trips exactly. -/
theorem tpdu_C3_witness :
    TPDU.ReadFrom (TPDU.WriteTo ⟨NumberedDataPacket, 3, 0, 9, [42]⟩)
      = Except.ok (⟨NumberedDataPacket, 3, 0, 9, [42]⟩, []) :=
  (tpdu_C3_short_roundtrip ⟨NumberedDataPacket, 3, 0, 9, [42]⟩
    (Or.inr rfl) (by decide)).2 42 (by decide) rfl

/-- Claim C4 counterexample: the two-byte input `[0b10_0011_01, 0b01_100101]`
does not decode to a numbered-data TPDU with sequence number 13, service code
5 and payload `[0b00100101]`; its header bits 7 and 6 are `10`, an
unnumbered-control packet, so the decoder returns the control record
(sequence number 3, control 1) and leaves the second byte unconsumed. -/
theorem tpdu_C4_counterexample :
    TPDU.ReadFrom [0b10001101, 0b01100101]
        = Except.ok (⟨UnnumberedControlPacket, 3, 1, 0, []⟩, [0b01100101])
      ∧ TPDU.ReadFrom [0b10001101, 0b01100101]
        ≠ Except.ok (⟨NumberedDataPacket, 13, 0, 5, [0b00100101]⟩, [])
      ∧ TPDU.ReadFrom [0b10001101, 0b01100101]
        ≠ Except.ok (⟨NumberedDataPacket, 13, 0, 5, [0b00100101]⟩, [0b01100101]) := by
  decide

/-- Claim C4 as amended: with the header byte written so that its packet-kind
bits actually say numbered-data and its sequence bits say 13, namely
`0b01_1101_01`, the two-byte input decodes to a numbered-data TPDU with
sequence number 13, service code `(1 <<< 2) ||| 1 = 5`, and payload equal to
the continuation byte masked to its low 6 bits. -/
theorem tpdu_C4_amended :
    TPDU.ReadFrom [0b01110101, 0b01100101]
      = Except.ok (⟨NumberedDataPacket, 13, 0, 5, [0b00100101]⟩, []) := by
  decide

/-- Claim C5: decoding returns the `DataUnitTooShort` error exactly when the
input is a single header byte whose bits 7 and 6 carry a data packet kind. -/
theorem tpdu_C5_dataUnitTooShort_iff (input : List Nat) :
    TPDU.ReadFrom input = Except.error DecodeError.dataUnitTooShort
      ↔ ∃ head, input = [head]
          ∧ (((head >>> 6) &&& 3) = UnnumberedDataPacket
            ∨ ((head >>> 6) &&& 3) = NumberedDataPacket) := by
  cases input with
  | nil => simp [TPDU.ReadFrom, ReadSequence]
  | cons head rest =>
    have h4 : (head >>> 6) &&& 3 < 4 := Nat.lt_succ_of_le Nat.and_le_right
    have hcases : (head >>> 6) &&& 3 = 0 ∨ (head >>> 6) &&& 3 = 1
        ∨ (head >>> 6) &&& 3 = 2 ∨ (head >>> 6) &&& 3 = 3 := by omega
    cases rest with
    | nil =>
      rcases hcases with h | h | h | h <;> simp [TPDU.ReadFrom, ReadSequence, h]
    | cons d0 ds =>
      rcases hcases with h | h | h | h <;> simp [TPDU.ReadFrom, ReadSequence, h]

/-- Claim C6: whenever the header byte carries a control packet kind, decoding
succeeds with control taken from bits 1 and 0 of the header, service code
zero and empty payload, and every byte beyond the header is left unconsumed
no matter how many are available. -/
theorem tpdu_C6_control_decode (head : Nat) (rest : List Nat)
    (h23 : ((head >>> 6) &&& 3) = UnnumberedControlPacket
      ∨ ((head >>> 6) &&& 3) = NumberedControlPacket) :
    TPDU.ReadFrom (head :: rest)
      = Except.ok (⟨(head >>> 6) &&& 3, (head >>> 2) &&& 15, head &&& 3, 0, []⟩, rest) :=
  ReadFrom_control head rest h23

/-- Claim C6 witness: the header `0b00_0000_10` with kind bits rewritten to
control, here `0b10_0000_10`, followed by two spare bytes. -/
theorem tpdu_C6_witness :
    TPDU.ReadFrom [0b10000010, 7, 8]
      = Except.ok (⟨UnnumberedControlPacket, 0, 2, 0, []⟩, [7, 8]) :=
  tpdu_C6_control_decode 0b10000010 [7, 8] (Or.inl (by decide))

/-- Claim C7: the encoder masks the sequence number to 4 bits and the control
value to 2 bits rather than rejecting them, so two TPDUs agreeing on those low
bits (and on every other field) encode to identical byte sequences; encoding
is total and never fails for a value reason. -/
theorem tpdu_C7_encode_masks (pt seq ctl info : Nat) (data : List Nat) (s c : Nat)
    (hs : s &&& 15 = seq &&& 15) (hc : c &&& 3 = ctl &&& 3) :
    TPDU.WriteTo ⟨pt, s, c, info, data⟩ = TPDU.WriteTo ⟨pt, seq, ctl, info, data⟩ := by
  simp only [TPDU.WriteTo]
  rw [hs, hc]

/-- Claim C7 witness: sequence number 31 encodes identically to 15, and
control 7 identically to 3. -/
theorem tpdu_C7_witness :
    TPDU.WriteTo ⟨UnnumberedControlPacket, 31, 7, 0, []⟩
      = TPDU.WriteTo ⟨UnnumberedControlPacket, 15, 3, 0, []⟩ :=
  tpdu_C7_encode_masks UnnumberedControlPacket 15 3 0 [] 31 7 (by decide) (by decide)

/-- Claim C8: decoding a zero-length input fails with the `TruncatedInput`
error, the failure of the one-byte header read. -/
theorem tpdu_C8_truncated :
    TPDU.ReadFrom [] = Except.error DecodeError.truncatedInput := rfl

/-- Claim C9: the 2-bit packet-kind field is exhaustive, so the decoder's
fallback branch after the packet-kind switch is never taken: every decode
either succeeds or fails with one of the two shortness errors, and the
`unreachable` error is never returned. -/
theorem tpdu_C9_no_unreachable : ∀ input : List Nat,
    TPDU.ReadFrom input = Except.error DecodeError.truncatedInput
    ∨ TPDU.ReadFrom input = Except.error DecodeError.dataUnitTooShort
    ∨ ∃ r, TPDU.ReadFrom input = Except.ok r := by
  intro input
  cases input with
  | nil => exact Or.inl rfl
  | cons head rest =>
    have h4 : (head >>> 6) &&& 3 < 4 := Nat.lt_succ_of_le Nat.and_le_right
    have hcases : (head >>> 6) &&& 3 = 0 ∨ (head >>> 6) &&& 3 = 1
        ∨ (head >>> 6) &&& 3 = 2 ∨ (head >>> 6) &&& 3 = 3 := by omega
    cases rest with
    | nil =>
      rcases hcases with h | h | h | h <;> simp [TPDU.ReadFrom, ReadSequence, h]
    | cons d0 ds =>
      rcases hcases with h | h | h | h <;> simp [TPDU.ReadFrom, ReadSequence, h]

/-- Claim C10: every successful decode normalizes the inactive fields: a
data-variant result has control 0 and a payload of length at least 1, and a
control-variant result has service code 0 and an empty payload. -/
theorem tpdu_C10_normalized (input : List Nat) (t : TPDU) (rem : List Nat)
    (hok : TPDU.ReadFrom input = Except.ok (t, rem)) :
    ((t.PacketType = UnnumberedDataPacket ∨ t.PacketType = NumberedDataPacket) →
      t.Control = 0 ∧ 1 ≤ t.Data.length)
    ∧ ((t.PacketType = UnnumberedControlPacket ∨ t.PacketType = NumberedControlPacket) →
      t.Info = 0 ∧ t.Data = []) := by
  cases input with
  | nil => simp [TPDU.ReadFrom, ReadSequence] at hok
  | cons head rest =>
    have h4 : (head >>> 6) &&& 3 < 4 := Nat.lt_succ_of_le Nat.and_le_right
    have hcases : (head >>> 6) &&& 3 = 0 ∨ (head >>> 6) &&& 3 = 1
        ∨ (head >>> 6) &&& 3 = 2 ∨ (head >>> 6) &&& 3 = 3 := by omega
    cases rest with
    | nil =>
      rcases hcases with h | h | h | h <;>
          simp [TPDU.ReadFrom, ReadSequence, h] at hok <;>
        · obtain ⟨h1, h2⟩ := hok
          subst h1
          simp
    | cons d0 ds =>
      rcases hcases with h | h | h | h <;>
          simp [TPDU.ReadFrom, ReadSequence, h] at hok <;>
        · obtain ⟨h1, h2⟩ := hok
          subst h1
          cases ds <;> simp

/-- Claim C10 witness: the decoded TPDU of a concrete numbered-data input has
control 0 and a non-empty payload. -/
theorem tpdu_C10_witness :
    (⟨NumberedDataPacket, 13, 0, 5, [37]⟩ : TPDU).Control = 0
      ∧ 1 ≤ (⟨NumberedDataPacket, 13, 0, 5, [37]⟩ : TPDU).Data.length :=
  (tpdu_C10_normalized [0b01110101, 0b01100101] ⟨NumberedDataPacket, 13, 0, 5, [37]⟩ []
    (by decide)).1 (Or.inr rfl)

end KnxProto
